import Mathlib

/-!
Verification of the Browsetic action protocol and executor.

The definitions below are a shallow embedding of the repository's Python
sources:

* `Action`, `ACTION_TYPE`, `REQUIRED_FIELDS`, `Action.init`,
  `Action.validate`, `Action.parse_content`, `Action.calculate_center`,
  `Action.to_dict`, `Action.from_dict` embed `src/action.py` (the action
  model imported by `src/browser_controller.py` and `src/vision_llm.py`).
* `BCState`, `get_all_pages`, `switch_to_page`, `switch_to_new_page`,
  `processAction`, `execute`, `set_website_url` embed
  `src/browser_controller.py` (the live Executor).

Python is dynamically typed; an `Action` field and a params/record
dictionary entry hold a dynamic `Value`, with `Value.vnone` standing for
Python `None`.  Machine-level aspects that the embedded code never relies
on (float coordinates are only ever added, averaged with `//`, and passed
through) are modelled with `Int`.
-/

deriving instance DecidableEq for Except

namespace Browsetic

/-- Dynamic value stored in an `Action` field or in a params/record
dictionary.  `vnone` is Python `None`; `coord` is a 4-tuple bounding box,
`pair` a 2-tuple, matching the payload shapes the program constructs. -/
inductive Value where
  | vnone : Value
  | str : String → Value
  | coord : Int × Int × Int × Int → Value
  | pair : Int × Int → Value
  | int : Int → Value
deriving DecidableEq

/-- Python dictionary with string keys, as used for `params` in
`Action.__init__` and for the `to_dict`/`from_dict` record. -/
abbrev Dict := List (String × Value)

/-- Python `d.get(k, None)`: the value stored under `k`, or `None` when the
key is absent. -/
def dictGet (d : Dict) (k : String) : Value :=
  match List.lookup k d with
  | some v => v
  | none => Value.vnone

/-- The supported action types (`ACTION_TYPE` in `src/action.py`). -/
def ACTION_TYPE : List String :=
  ["start", "click", "left_double", "right_single", "drag", "hotkey", "type",
   "scroll", "wait", "finished", "call_user", "switch_tab"]

/-- The required-field table (`Action.REQUIRED_FIELDS` in `src/action.py`). -/
def REQUIRED_FIELDS : List (String × List String) :=
  [("click", ["start_box"]),
   ("left_double", ["start_box"]),
   ("right_single", ["start_box"]),
   ("drag", ["start_box", "end_box"]),
   ("scroll", ["start_box", "deltas"]),
   ("type", ["content"]),
   ("hotkey", ["key"]),
   ("wait", []),
   ("finished", []),
   ("call_user", ["question"]),
   ("switch_tab", ["tab_index"])]

/-- Python `REQUIRED_FIELDS.get(action_type, [])`. -/
def requiredFields (action_type : String) : List String :=
  match List.lookup action_type REQUIRED_FIELDS with
  | some l => l
  | none => []

/-- The `Action` dataclass of `src/action.py`.  Fields hold dynamic values;
`Value.vnone` is an absent (Python `None`) field.  The `message` attribute
set by `__init__` is not a dataclass field and takes no part in equality or
serialization, so it is not modelled. -/
structure Action where
  action_type : String
  content : Value := Value.vnone
  start_box : Value := Value.vnone
  end_box : Value := Value.vnone
  deltas : Value := Value.vnone
  key : Value := Value.vnone
  question : Value := Value.vnone
  answer : Value := Value.vnone
  tab_index : Value := Value.vnone
deriving DecidableEq

/-- The optional-field names of the dataclass, in declaration order. -/
def fieldNames : List String :=
  ["content", "start_box", "end_box", "deltas", "key", "question", "answer",
   "tab_index"]

/-- Python `getattr(self, field)` for the dataclass field names.  The
required-field table only ever names declared fields, so the catch-all
branch is unreachable in the embedded program. -/
def Action.getattr (a : Action) : String → Value
  | "content" => a.content
  | "start_box" => a.start_box
  | "end_box" => a.end_box
  | "deltas" => a.deltas
  | "key" => a.key
  | "question" => a.question
  | "answer" => a.answer
  | "tab_index" => a.tab_index
  | _ => Value.vnone

/-- The `ValueError` message raised by `Action.validate` for a missing
required field (quotation marks around the interpolated values elided). -/
def missingFieldMsg (action_type fieldName : String) : String :=
  "Action type " ++ action_type ++ " requires field " ++ fieldName ++
    " which is not provided."

/-- The loop body of `Action.validate`: raise on the first required field
that is `None`. -/
def Action.checkRequired (a : Action) : List String → Except String Unit
  | [] => Except.ok ()
  | f :: rest =>
      if a.getattr f = Value.vnone then
        Except.error (missingFieldMsg a.action_type f)
      else
        a.checkRequired rest

/-- `Action.validate` from `src/action.py`: check every field required for
the action's type, raising `ValueError` on the first missing one. -/
def Action.validate (a : Action) : Except String Unit :=
  a.checkRequired (requiredFields a.action_type)

/-- The field-population part of `Action.__init__`: each dataclass field is
read from `params` with `params.get(key, None)`. -/
def Action.build (action_type : String) (params : Dict) : Action :=
  { action_type := action_type
    content := dictGet params "content"
    start_box := dictGet params "start_box"
    end_box := dictGet params "end_box"
    deltas := dictGet params "deltas"
    key := dictGet params "key"
    question := dictGet params "question"
    answer := dictGet params "answer"
    tab_index := dictGet params "tab_index" }

/-- `Action.__init__(action_type, params)` from `src/action.py`: populate
the fields from `params`, reject an empty or unsupported `action_type`,
then validate the required fields. -/
def Action.init (action_type : String) (params : Dict) : Except String Action :=
  let a := Action.build action_type params
  if action_type = "" then
    Except.error "action_type is required"
  else if action_type ∈ ACTION_TYPE then
    match a.validate with
    | Except.ok _ => Except.ok a
    | Except.error e => Except.error e
  else
    Except.error ("unsupported action type: " ++ action_type)

/-- Python `s.rstrip(chars)`: remove every trailing character that belongs
to the character set `chars`. -/
def pyRstrip (s : String) (chars : List Char) : String :=
  String.mk ((s.data.reverse.dropWhile (fun c => chars.contains c)).reverse)

/-- Python `s.endswith(suffix)`: the code-point sequence of `suffix` is a
suffix of that of `s`. -/
def pyEndsWith (s suffix : String) : Bool :=
  decide (suffix.data <:+ s.data)

/-- The newline sentinel of `src/action.py`: the source tests
`content.endswith('\\n')`, i.e. the two-character string backslash-n. -/
def newlineSentinel : String := "\\n"

/-- The character set `rstrip` removes for the sentinel `'\\n'`. -/
def sentinelChars : List Char := ['\\', 'n']

/-- `Action.parse_content` from `src/action.py`: if the content is truthy
and ends with the sentinel, strip with `rstrip` and request submission;
otherwise return the content (or the empty string) unchanged. -/
def Action.parse_content (a : Action) : String × Bool :=
  match a.content with
  | Value.str c =>
      if c ≠ "" ∧ pyEndsWith c newlineSentinel = true then
        (pyRstrip c sentinelChars, true)
      else
        (c, false)
  | _ => ("", false)

/-- `Action.calculate_center` from `src/action.py`: the midpoint of a
bounding box `(x1, y1, x2, y2)` computed with Python floor division. -/
def Action.calculate_center (box : Int × Int × Int × Int) : Int × Int :=
  (Int.fdiv (box.1 + box.2.2.1) 2, Int.fdiv (box.2.1 + box.2.2.2) 2)

/-- `Action.to_dict` from `src/action.py`: every field is written under its
key, an absent field as an explicit `None` entry. -/
def Action.to_dict (a : Action) : Dict :=
  [("action_type", Value.str a.action_type),
   ("content", a.content),
   ("start_box", a.start_box),
   ("end_box", a.end_box),
   ("deltas", a.deltas),
   ("key", a.key),
   ("question", a.question),
   ("answer", a.answer),
   ("tab_index", a.tab_index)]

/-- `Action.from_dict` from `src/action.py`: rebuild via
`cls(data['action_type'], data)`; a record without the `action_type` key
(or with a non-string one) raises. -/
def Action.from_dict (d : Dict) : Except String Action :=
  match dictGet d "action_type" with
  | Value.str t => Action.init t d
  | _ => Except.error "action_type is required"

/-! ## The Executor (`src/browser_controller.py`)

The browser itself is external: a Playwright page object is modelled as a
`Page` identified by `pid` with an open/closed flag, and the browsing
context's page collection as a list in creation order.  A handler's
interaction with the capability interface is recorded as a trace of `Cap`
events; the environment `Env` describes the part of the behaviour the
browser chooses (pages implicitly opened by a dispatched primitive, and
whether a pointer/keyboard/wheel primitive raises). -/

/-- A Playwright page: identity plus its `is_closed()` flag. -/
structure Page where
  pid : Nat
  closed : Bool
deriving DecidableEq

/-- The `BrowserController` state relevant to page management:
`self._context.pages`, the `self._pages` cache, and `self._page`. -/
structure BCState where
  contextPages : List Page
  pages : List Page
  current : Option Page
deriving DecidableEq

/-- Python exception values as the embedded code distinguishes them.
`browserOpFrom` is `raise BrowserOperationError(msg) from cause`;
`browserOp` is a `BrowserOperationError` raised without an explicit
cause. -/
inductive PyErr where
  | valueError (msg : String)
  | capability (msg : String)
  | typeError (msg : String)
  | browserOp (msg : String)
  | browserOpFrom (msg : String) (cause : PyErr)
deriving DecidableEq

/-- One call against the browser capability interface, as recorded in a
handler's trace.  `sleep` is `asyncio.sleep`; `getAllPages` is a refresh of
the open-page list; `evalJs` is the cosmetic mouse-animation evaluate. -/
inductive Cap where
  | evalJs
  | mouseMove (x y : Int)
  | mouseClick (x y : Int) (button : String) (count : Nat)
  | mouseDown
  | mouseUp
  | wheel (dx dy : Int)
  | keyPress (k : String)
  | keyType (s : String)
  | sleep
  | getAllPages
  | waitForLoadState
deriving DecidableEq

/-- Environment chosen by the browser during one action dispatch:
`opened` are the pages the context gains as an implicit side effect of the
dispatched primitive (e.g. a click opening a popup); `fail`, when set, is
the exception the first pointer/keyboard/wheel primitive raises.  The
cosmetic `_show_mouse_move` swallows its own failures (its body is wrapped
in a try/except that only logs), so it is modelled as never raising. -/
structure Env where
  opened : List Page
  fail : Option PyErr
deriving DecidableEq

/-- `BrowserController.get_all_pages`: refresh `self._pages` from the
context, dropping closed pages, and return the refreshed list. -/
def get_all_pages (s : BCState) : List Page × BCState :=
  let ps := s.contextPages.filter (fun p => !p.closed)
  (ps, { s with pages := ps })

/-- `BrowserController.switch_to_page(page_index)`: refresh the page list;
if the index is in range make that page current, else raise
`BrowserOperationError`.  The state component is the object state after the
call, also on the error path (the refresh has already happened; the current
page is untouched). -/
def switch_to_page (page_index : Int) (s : BCState) :
    Except PyErr Unit × BCState :=
  if h : 0 ≤ page_index ∧ page_index < (((get_all_pages s).1).length : Int) then
    (Except.ok (),
     { (get_all_pages s).2 with
        current := some ((get_all_pages s).1.get ⟨page_index.toNat, by omega⟩) })
  else
    (Except.error (PyErr.browserOp
        ("Invalid page index: " ++ toString page_index ++ ". Total pages: " ++
          toString ((get_all_pages s).1).length)),
     (get_all_pages s).2)

/-- `BrowserController.switch_to_new_page`: refresh the page list; make the
last (most recently opened) page current, or raise when the refreshed list
is empty. -/
def switch_to_new_page (s : BCState) : Except PyErr Unit × BCState :=
  match (get_all_pages s).1.getLast? with
  | some p => (Except.ok (), { (get_all_pages s).2 with current := some p })
  | none =>
      (Except.error (PyErr.browserOp "No pages available"), (get_all_pages s).2)

/-- A pointer/keyboard/wheel call: raises the environment's chosen failure
if there is one, otherwise records itself in the trace. -/
def dispatchPrim (env : Env) (c : Cap) : Except PyErr (List Cap) :=
  match env.fail with
  | some e => Except.error e
  | none => Except.ok [c]

/-- `BrowserController._handle_click`: cosmetic mouse animation, page count
before, `mouse.click` at the box center, short wait, page count after, an
extra wait when the count grew, then a (timeout-swallowing) wait for the
DOM-loaded state.  A click dispatched on a field that is not a box raises a
`TypeError` (Python would fail unpacking `None`); validated well-typed
actions never reach that branch. -/
def handle_click (a : Action) (env : Env) (s : BCState) :
    Except PyErr (List Cap × BCState) :=
  match a.start_box with
  | Value.coord box =>
      let c := Action.calculate_center box
      let (before, s1) := get_all_pages s
      match dispatchPrim env (Cap.mouseClick c.1 c.2 "left" 1) with
      | Except.error e => Except.error e
      | Except.ok trC =>
          let s2 : BCState :=
            { s1 with contextPages := s1.contextPages ++ env.opened }
          let (after, s3) := get_all_pages s2
          let trGrow : List Cap :=
            if before.length < after.length then [Cap.sleep] else []
          Except.ok
            ([Cap.evalJs, Cap.sleep, Cap.getAllPages] ++ trC ++
               [Cap.sleep, Cap.getAllPages] ++ trGrow ++
               [Cap.waitForLoadState],
             s3)
  | _ => Except.error (PyErr.typeError "click requires a start_box")

/-- `BrowserController._handle_double_click`: cosmetic animation, a
count-2 click, a wait, a (timeout-swallowing) DOM wait.  No page-list
refresh occurs; implicitly opened pages only land in the context. -/
def handle_double_click (a : Action) (env : Env) (s : BCState) :
    Except PyErr (List Cap × BCState) :=
  match a.start_box with
  | Value.coord box =>
      let c := Action.calculate_center box
      match dispatchPrim env (Cap.mouseClick c.1 c.2 "left" 2) with
      | Except.error e => Except.error e
      | Except.ok trC =>
          Except.ok
            ([Cap.evalJs, Cap.sleep] ++ trC ++
               [Cap.sleep, Cap.waitForLoadState],
             { s with contextPages := s.contextPages ++ env.opened })
  | _ => Except.error (PyErr.typeError "left_double requires a start_box")

/-- `BrowserController._handle_right_click`: cosmetic animation, a
right-button click, a wait. -/
def handle_right_click (a : Action) (env : Env) (s : BCState) :
    Except PyErr (List Cap × BCState) :=
  match a.start_box with
  | Value.coord box =>
      let c := Action.calculate_center box
      match dispatchPrim env (Cap.mouseClick c.1 c.2 "right" 1) with
      | Except.error e => Except.error e
      | Except.ok trC =>
          Except.ok
            ([Cap.evalJs, Cap.sleep] ++ trC ++ [Cap.sleep],
             { s with contextPages := s.contextPages ++ env.opened })
  | _ => Except.error (PyErr.typeError "right_single requires a start_box")

/-- `BrowserController._handle_drag`: move to the start center, press, move
to the end center, release, wait — strictly ordered. -/
def handle_drag (a : Action) (env : Env) (s : BCState) :
    Except PyErr (List Cap × BCState) :=
  match a.start_box, a.end_box with
  | Value.coord b1, Value.coord b2 =>
      let cs := Action.calculate_center b1
      let ce := Action.calculate_center b2
      match dispatchPrim env (Cap.mouseMove cs.1 cs.2) with
      | Except.error e => Except.error e
      | Except.ok tr0 =>
          Except.ok
            (tr0 ++ [Cap.mouseDown, Cap.mouseMove ce.1 ce.2, Cap.mouseUp,
               Cap.sleep],
             { s with contextPages := s.contextPages ++ env.opened })
  | _, _ => Except.error (PyErr.typeError "drag requires start_box and end_box")

/-- `BrowserController._handle_hotkey`: a single key press, a wait, a
(timeout-swallowing) DOM wait. -/
def handle_hotkey (a : Action) (env : Env) (s : BCState) :
    Except PyErr (List Cap × BCState) :=
  match a.key with
  | Value.str k =>
      match dispatchPrim env (Cap.keyPress k) with
      | Except.error e => Except.error e
      | Except.ok tr0 =>
          Except.ok
            (tr0 ++ [Cap.sleep, Cap.waitForLoadState],
             { s with contextPages := s.contextPages ++ env.opened })
  | _ => Except.error (PyErr.typeError "hotkey requires a key")

/-- `BrowserController._handle_type`: parse the content, type it, press
Enter plus a (timeout-swallowing) DOM wait when submission was requested,
then wait. -/
def handle_type (a : Action) (env : Env) (s : BCState) :
    Except PyErr (List Cap × BCState) :=
  match a.content with
  | Value.str _ =>
      let parsed := a.parse_content
      match dispatchPrim env (Cap.keyType parsed.1) with
      | Except.error e => Except.error e
      | Except.ok tr0 =>
          let trSubmit : List Cap :=
            if parsed.2 then [Cap.keyPress "Enter", Cap.waitForLoadState]
            else []
          Except.ok
            (tr0 ++ trSubmit ++ [Cap.sleep],
             { s with contextPages := s.contextPages ++ env.opened })
  | _ => Except.error (PyErr.typeError "type requires content")

/-- `BrowserController._handle_scroll`: move the pointer to the box center,
dispatch a wheel event with the deltas, wait. -/
def handle_scroll (a : Action) (env : Env) (s : BCState) :
    Except PyErr (List Cap × BCState) :=
  match a.start_box, a.deltas with
  | Value.coord box, Value.pair d =>
      let c := Action.calculate_center box
      match dispatchPrim env (Cap.mouseMove c.1 c.2) with
      | Except.error e => Except.error e
      | Except.ok tr0 =>
          Except.ok
            (tr0 ++ [Cap.wheel d.1 d.2, Cap.sleep],
             { s with contextPages := s.contextPages ++ env.opened })
  | _, _ => Except.error (PyErr.typeError "scroll requires start_box and deltas")

/-- Lift the outcome of a page switch into the handler's result: a
successful switch is followed by the short post-switch wait; a raised
`BrowserOperationError` propagates. -/
def afterSwitch (r : Except PyErr Unit × BCState) :
    Except PyErr (List Cap × BCState) :=
  match r.1 with
  | Except.ok _ => Except.ok ([Cap.getAllPages, Cap.sleep], r.2)
  | Except.error e => Except.error e

/-- `BrowserController._handle_switch_tab`: with a `tab_index`, select that
index, else select the most recently opened page; a short wait follows a
successful switch. -/
def handle_switch_tab (a : Action) (s : BCState) :
    Except PyErr (List Cap × BCState) :=
  match a.tab_index with
  | Value.int i => afterSwitch (switch_to_page i s)
  | Value.vnone => afterSwitch (switch_to_new_page s)
  | _ => Except.error (PyErr.typeError "tab_index must be an integer")

/-- `BrowserController._process_action`: route by action type through the
handler table; a type with no handler entry (notably `wait`, `start`,
`finished`, `call_user`) hits the `KeyError` branch and raises
`ValueError`. -/
def processAction (a : Action) (env : Env) (s : BCState) :
    Except PyErr (List Cap × BCState) :=
  if a.action_type = "click" then handle_click a env s
  else if a.action_type = "left_double" then handle_double_click a env s
  else if a.action_type = "right_single" then handle_right_click a env s
  else if a.action_type = "drag" then handle_drag a env s
  else if a.action_type = "hotkey" then handle_hotkey a env s
  else if a.action_type = "type" then handle_type a env s
  else if a.action_type = "scroll" then handle_scroll a env s
  else if a.action_type = "switch_tab" then handle_switch_tab a s
  else
    Except.error (PyErr.valueError
      ("Invalid action type: " ++ a.action_type ++
        ". Valid types: click, left_double, right_single, drag, hotkey, type, scroll, switch_tab"))

/-- `BrowserController.execute`: validate (a validation failure propagates
unwrapped, before the try block), return immediately for the marker types,
otherwise dispatch and wrap any exception from the dispatch as
`BrowserOperationError(f"Action failed: ...") from e`.  The lazy
`initialize()` on a missing page is outside this model: the controller is
taken as initialized. -/
def execute (a : Action) (env : Env) (s : BCState) :
    Except PyErr (List Cap × BCState) :=
  match a.validate with
  | Except.error e => Except.error (PyErr.valueError e)
  | Except.ok _ =>
      if a.action_type ∈ ["call_user", "finished", "start"] then
        Except.ok ([], s)
      else
        match processAction a env s with
        | Except.ok r => Except.ok r
        | Except.error e =>
            Except.error (PyErr.browserOpFrom
              ("Action failed: " ++ a.action_type) e)

/-- `BrowserController.set_website_url`: prefix `https://` when the url is
truthy and does not contain the substring `http`, then assert the stored
url is truthy.  `strContains s sub` is Python `sub in s`. -/
def strContains (s sub : String) : Bool :=
  decide (sub.data <:+: s.data)

/-- The scheme-prefixing step of `set_website_url`: prefix `https://` when
the url is truthy and `http` does not occur in it. -/
def prefixScheme (website_url : String) : String :=
  if website_url ≠ "" ∧ strContains website_url "http" = false then
    "https://" ++ website_url
  else website_url

/-- `BrowserController.set_website_url` itself; the error is the
`AssertionError` of `assert self.website_url`. -/
def set_website_url (website_url : String) : Except String String :=
  if prefixScheme website_url = "" then
    Except.error "News website cannot be None!"
  else Except.ok (prefixScheme website_url)

/-! ## Helper lemmas -/

/-- The required-field check succeeds when every listed field is present. -/
theorem checkRequired_ok (a : Action) (l : List String)
    (h : ∀ f ∈ l, a.getattr f ≠ Value.vnone) :
    a.checkRequired l = Except.ok () := by
  induction l with
  | nil => rfl
  | cons f rest ih =>
      have hf := h f (by simp)
      simp only [Action.checkRequired, if_neg hf]
      exact ih fun g hg => h g (by simp [hg])

/-- The required-field check fails, naming a missing field, whenever one of
the listed fields is absent. -/
theorem checkRequired_missing (a : Action) (l : List String)
    (h : ∃ f, f ∈ l ∧ a.getattr f = Value.vnone) :
    ∃ f, f ∈ l ∧ a.getattr f = Value.vnone ∧
      a.checkRequired l = Except.error (missingFieldMsg a.action_type f) := by
  induction l with
  | nil => simp at h
  | cons f rest ih =>
      by_cases hf : a.getattr f = Value.vnone
      · exact ⟨f, by simp, hf, by simp [Action.checkRequired, if_pos hf]⟩
      · obtain ⟨g, hg, hgv⟩ := h
        have hgrest : g ∈ rest := by
          rcases List.mem_cons.mp hg with rfl | h2
          · exact absurd hgv hf
          · exact h2
        obtain ⟨g2, hg2, hgv2, heq⟩ := ih ⟨g, hgrest, hgv⟩
        exact ⟨g2, by simp [hg2], hgv2, by
          simp only [Action.checkRequired, if_neg hf]; exact heq⟩

/-- The fields populated by `Action.__init__` are exactly the `params`
entries. -/
theorem build_getattr (t : String) (params : Dict) :
    ∀ f ∈ fieldNames, (Action.build t params).getattr f = dictGet params f := by
  intro f hf
  fin_cases hf <;> rfl

/-- Every field the table requires is a declared dataclass field. -/
theorem required_sub_fieldNames :
    ∀ t ∈ ACTION_TYPE, ∀ f ∈ requiredFields t, f ∈ fieldNames := by decide

/-- No supported action type is the empty string. -/
theorem mem_ACTION_TYPE_ne_empty : ∀ t ∈ ACTION_TYPE, t ≠ "" := by decide

/-- Splitting a string into its `rstrip` result and the removed tail. -/
theorem pyRstrip_append (s : String) (cs : List Char) :
    ∃ t : List Char, (pyRstrip s cs).data ++ t = s.data ∧ ∀ ch ∈ t, ch ∈ cs := by
  refine ⟨(s.data.reverse.takeWhile (fun c => cs.contains c)).reverse, ?_, ?_⟩
  · have h :
        (s.data.reverse.takeWhile (fun c => cs.contains c)) ++
          (s.data.reverse.dropWhile (fun c => cs.contains c)) = s.data.reverse :=
      List.takeWhile_append_dropWhile _ s.data.reverse
    have h2 := congrArg List.reverse h
    rw [List.reverse_append, List.reverse_reverse] at h2
    exact h2
  · intro ch hch
    rw [List.mem_reverse] at hch
    have := List.mem_takeWhile_imp hch
    exact List.mem_of_elem_eq_true this

/-- The head of `dropWhile` does not satisfy the predicate. -/
theorem head_dropWhile_not {α : Type} (p : α → Bool) (l : List α) :
    ∀ x, (l.dropWhile p).head? = some x → p x = false := by
  induction l with
  | nil => simp [List.dropWhile]
  | cons a l ih =>
      intro x hx
      by_cases h : p a
      · rw [List.dropWhile_cons_of_pos h] at hx
        exact ih x hx
      · rw [List.dropWhile_cons_of_neg h] at hx
        simp only [List.head?_cons, Option.some.injEq] at hx
        rw [← hx]
        exact Bool.of_not_eq_true h

/-- The `rstrip` result has no trailing character from the stripped set. -/
theorem pyRstrip_no_trailing (s : String) (cs : List Char) :
    ∀ ch, (pyRstrip s cs).data.getLast? = some ch → ch ∉ cs := by
  intro ch hch
  have hh : ((s.data.reverse.dropWhile (fun c => cs.contains c)).reverse).getLast?
      = some ch := hch
  rw [List.getLast?_reverse] at hh
  have hfalse : cs.elem ch = false :=
    head_dropWhile_not (fun c => cs.contains c) s.data.reverse ch hh
  intro hmem
  rw [List.elem_eq_true_of_mem hmem] at hfalse
  exact Bool.noConfusion hfalse

/-- A string starting with a scheme prefix is never empty. -/
theorem https_append_ne_empty (s : String) : ("https://" ++ s) ≠ "" := by
  intro h
  have h2 := congrArg String.data h
  rw [String.data_append] at h2
  simp at h2

/-! ## Claim theorems for the Action model -/

/-- C1: for every supported action type and every params map, construction
fails with a validation error naming a specific missing field whenever a
field the table requires for that type is absent, and succeeds (so in
particular never fails on that ground) when every required field is
present. -/
theorem action_init_required_fields (t : String) (params : Dict)
    (ht : t ∈ ACTION_TYPE) :
    ((∃ f, f ∈ requiredFields t ∧ dictGet params f = Value.vnone) →
       ∃ f, f ∈ requiredFields t ∧ dictGet params f = Value.vnone ∧
         Action.init t params = Except.error (missingFieldMsg t f)) ∧
    ((∀ f ∈ requiredFields t, dictGet params f ≠ Value.vnone) →
       Action.init t params = Except.ok (Action.build t params)) := by
  have hne : t ≠ "" := mem_ACTION_TYPE_ne_empty t ht
  have hga : ∀ f ∈ requiredFields t,
      (Action.build t params).getattr f = dictGet params f :=
    fun f hf => build_getattr t params f (required_sub_fieldNames t ht f hf)
  constructor
  · rintro ⟨f, hf, hfv⟩
    obtain ⟨g, hg, hgv, heq⟩ :=
      checkRequired_missing (Action.build t params) (requiredFields t)
        ⟨f, hf, by rw [hga f hf]; exact hfv⟩
    refine ⟨g, hg, by rw [← hga g hg]; exact hgv, ?_⟩
    unfold Action.init
    rw [if_neg hne, if_pos ht]
    have hv : (Action.build t params).validate =
        Except.error (missingFieldMsg t g) := heq
    rw [hv]
  · intro hall
    have hv : (Action.build t params).validate = Except.ok () :=
      checkRequired_ok _ _ (fun f hf => by rw [hga f hf]; exact hall f hf)
    unfold Action.init
    rw [if_neg hne, if_pos ht, hv]

/-- Witness for C1: a `drag` without `end_box` is rejected naming that
field; a `click` with its `start_box` present is accepted. -/
theorem action_init_required_fields_witness :
    (∃ f, f ∈ requiredFields "drag" ∧
       dictGet [("start_box", Value.coord (1, 2, 3, 4))] f = Value.vnone ∧
       Action.init "drag" [("start_box", Value.coord (1, 2, 3, 4))] =
         Except.error (missingFieldMsg "drag" f)) ∧
    Action.init "click" [("start_box", Value.coord (1, 2, 3, 4))] =
      Except.ok (Action.build "click" [("start_box", Value.coord (1, 2, 3, 4))]) :=
  ⟨(action_init_required_fields "drag" _ (by decide)).1 (by decide),
   (action_init_required_fields "click" _ (by decide)).2 (by decide)⟩

/-- C4 fails as stated: the content `span` followed by the sentinel ends
with the newline sentinel, yet `parse_content` returns `spa`, not the text
with the sentinel stripped (`span`); Python `rstrip` removes every trailing
character of the sentinel's character set. -/
theorem parse_content_sentinel_strip_cex :
    pyEndsWith "span\\n" newlineSentinel = true ∧
    Action.parse_content { action_type := "type", content := Value.str "span\\n" } =
      ("spa", true) ∧
    ("spa" : String) ≠ "span" :=
  ⟨by decide, by decide, by decide⟩

/-- C4 (amended): for content ending with the sentinel, `parse_content`
returns the content with every trailing sentinel-set character removed
(`rstrip` semantics) and `submit_after = true`; content not ending with the
sentinel is returned unchanged with `submit_after = false`; empty or absent
content yields the empty string and `false`. -/
theorem parse_content_rstrip_spec (a : Action) :
    (∀ c : String, a.content = Value.str c → c ≠ "" →
       pyEndsWith c newlineSentinel = true →
       a.parse_content = (pyRstrip c sentinelChars, true) ∧
       (∃ t : List Char, (pyRstrip c sentinelChars).data ++ t = c.data ∧
          ∀ ch ∈ t, ch ∈ sentinelChars) ∧
       (∀ ch, (pyRstrip c sentinelChars).data.getLast? = some ch →
          ch ∉ sentinelChars)) ∧
    (∀ c : String, a.content = Value.str c →
       pyEndsWith c newlineSentinel = false →
       a.parse_content = (c, false)) ∧
    ((a.content = Value.vnone ∨ a.content = Value.str "") →
       a.parse_content = ("", false)) := by
  have hpc : ∀ c : String, a.content = Value.str c →
      a.parse_content =
        (if c ≠ "" ∧ pyEndsWith c newlineSentinel = true
         then (pyRstrip c sentinelChars, true) else (c, false)) := by
    intro c hc
    rw [Action.parse_content, hc]
  refine ⟨?_, ?_, ?_⟩
  · intro c hc hne hend
    rw [hpc c hc, if_pos ⟨hne, hend⟩]
    exact ⟨rfl, pyRstrip_append c sentinelChars, pyRstrip_no_trailing c sentinelChars⟩
  · intro c hc hend
    rw [hpc c hc,
      if_neg (fun hcond => by rw [hend] at hcond; exact Bool.noConfusion hcond.2)]
  · rintro (hc | hc)
    · rw [Action.parse_content, hc]
    · rw [hpc "" hc, if_neg (fun hcond => hcond.1 rfl)]

/-- Witness for the amended C4 at the spec's own test vectors. -/
theorem parse_content_rstrip_spec_witness :
    Action.parse_content { action_type := "type", content := Value.str "hello\\n" } =
      (pyRstrip "hello\\n" sentinelChars, true) ∧
    Action.parse_content { action_type := "type", content := Value.str "hello" } =
      ("hello", false) ∧
    Action.parse_content { action_type := "type", content := Value.str "" } =
      ("", false) :=
  ⟨((parse_content_rstrip_spec _).1 "hello\\n" rfl (by decide) (by decide)).1,
   (parse_content_rstrip_spec _).2.1 "hello" rfl (by decide),
   (parse_content_rstrip_spec _).2.2 (Or.inr rfl)⟩

/-- C5: `calculate_center` is the floor midpoint in both coordinates (the
characterizing inequalities of floor division by two hold), and the spec's
even- and odd-width examples evaluate as documented. -/
theorem calculate_center_floor_midpoint (x1 y1 x2 y2 : Int) :
    2 * (Action.calculate_center (x1, y1, x2, y2)).1 ≤ x1 + x2 ∧
    x1 + x2 < 2 * (Action.calculate_center (x1, y1, x2, y2)).1 + 2 ∧
    2 * (Action.calculate_center (x1, y1, x2, y2)).2 ≤ y1 + y2 ∧
    y1 + y2 < 2 * (Action.calculate_center (x1, y1, x2, y2)).2 + 2 ∧
    Action.calculate_center (0, 0, 10, 10) = (5, 5) ∧
    Action.calculate_center (1, 1, 2, 2) = (1, 1) := by
  have hx : Int.fdiv (x1 + x2) 2 = (x1 + x2) / 2 :=
    Int.fdiv_eq_ediv _ (by norm_num)
  have hy : Int.fdiv (y1 + y2) 2 = (y1 + y2) / 2 :=
    Int.fdiv_eq_ediv _ (by norm_num)
  refine ⟨?_, ?_, ?_, ?_, by decide, by decide⟩
  · show 2 * Int.fdiv (x1 + x2) 2 ≤ x1 + x2
    rw [hx]; omega
  · show x1 + x2 < 2 * Int.fdiv (x1 + x2) 2 + 2
    rw [hx]; omega
  · show 2 * Int.fdiv (y1 + y2) 2 ≤ y1 + y2
    rw [hy]; omega
  · show y1 + y2 < 2 * Int.fdiv (y1 + y2) 2 + 2
    rw [hy]; omega

/-- C6: serialization round-trips every validly constructed action, and the
record lists every optional field under its key (an absent field as an
explicit `None` entry, never an omitted key). -/
theorem to_dict_from_dict_roundtrip (a : Action)
    (ht : a.action_type ∈ ACTION_TYPE) (hv : a.validate = Except.ok ()) :
    Action.from_dict a.to_dict = Except.ok a ∧
    ∀ k ∈ fieldNames, List.lookup k a.to_dict = some (a.getattr k) := by
  constructor
  · show Action.init a.action_type a.to_dict = Except.ok a
    have hb : Action.build a.action_type a.to_dict = a := rfl
    unfold Action.init
    rw [if_neg (mem_ACTION_TYPE_ne_empty _ ht), if_pos ht]
    rw [hb, hv]
  · intro k hk
    fin_cases hk <;> rfl

/-- Witness for C6: the round trip at a `wait` action with every optional
field absent. -/
theorem to_dict_from_dict_roundtrip_witness :
    Action.from_dict (Action.to_dict { action_type := "wait" }) =
      Except.ok { action_type := "wait" } ∧
    ∀ k ∈ fieldNames,
      List.lookup k (Action.to_dict { action_type := "wait" }) =
        some (Action.getattr { action_type := "wait" } k) :=
  to_dict_from_dict_roundtrip { action_type := "wait" } (by decide) (by decide)

/-- C9: `set_website_url` prefixes the scheme exactly when `http` does not
occur anywhere in a non-empty url; a url containing `http` anywhere is
stored unchanged; the empty url fails the assertion.  In particular
`myhttpsite.com` gains no scheme. -/
theorem set_website_url_spec (url : String) :
    (url ≠ "" → strContains url "http" = false →
       set_website_url url = Except.ok ("https://" ++ url)) ∧
    (strContains url "http" = true → set_website_url url = Except.ok url) ∧
    (url = "" → set_website_url url = Except.error "News website cannot be None!") ∧
    set_website_url "myhttpsite.com" = Except.ok "myhttpsite.com" := by
  refine ⟨?_, ?_, ?_, by decide⟩
  · intro h1 h2
    have hp : prefixScheme url = "https://" ++ url := by
      unfold prefixScheme
      rw [if_pos ⟨h1, h2⟩]
    unfold set_website_url
    rw [hp, if_neg (https_append_ne_empty url)]
  · intro h2
    have hp : prefixScheme url = url := by
      unfold prefixScheme
      rw [if_neg (fun hcond => by rw [h2] at hcond; exact Bool.noConfusion hcond.2)]
    have hne : url ≠ "" := by
      intro h0
      rw [h0] at h2
      exact absurd h2 (by decide)
    unfold set_website_url
    rw [hp, if_neg hne]
  · intro h0
    subst h0
    decide

/-- Witness for C9 at concrete urls for each branch. -/
theorem set_website_url_spec_witness :
    set_website_url "example.com" = Except.ok "https://example.com" ∧
    set_website_url "myhttpsite.com" = Except.ok "myhttpsite.com" ∧
    set_website_url "" = Except.error "News website cannot be None!" :=
  ⟨(set_website_url_spec "example.com").1 (by decide) (by decide),
   (set_website_url_spec "myhttpsite.com").2.1 (by decide),
   (set_website_url_spec "").2.2.1 rfl⟩

/-! ## Claim theorems for the Executor -/

/-- A pointer, keyboard, or wheel capability call — the per-action dispatch
primitives, as opposed to waits, page-list reads, and cosmetic calls. -/
def isDispatchPrim : Cap → Bool
  | Cap.mouseClick _ _ _ _ => true
  | Cap.mouseMove _ _ => true
  | Cap.mouseDown => true
  | Cap.mouseUp => true
  | Cap.wheel _ _ => true
  | Cap.keyPress _ => true
  | Cap.keyType _ => true
  | _ => false

/-- A trace detects open-page growth when it reads the page list both
before and after a dispatch primitive. -/
def detectsPageGrowth (tr : List Cap) : Prop :=
  ∃ i j k : Nat, i < j ∧ j < k ∧
    tr.get? i = some Cap.getAllPages ∧
    (∃ c, tr.get? j = some c ∧ isDispatchPrim c = true) ∧
    tr.get? k = some Cap.getAllPages

/-- A trace with no page-list read detects no growth. -/
theorem not_detects_of_no_getAllPages (tr : List Cap)
    (h : Cap.getAllPages ∉ tr) : ¬ detectsPageGrowth tr := by
  rintro ⟨i, j, k, -, -, hi, -, -⟩
  exact h (List.get?_mem hi)

/-- A trace with no dispatch primitive detects no growth. -/
theorem not_detects_of_no_dispatch (tr : List Cap)
    (h : ∀ c ∈ tr, isDispatchPrim c = false) : ¬ detectsPageGrowth tr := by
  rintro ⟨i, j, k, -, -, -, ⟨c, hj, hc⟩, -⟩
  rw [h c (List.get?_mem hj)] at hc
  exact Bool.noConfusion hc

/-- C2 records a code bug: a validly constructed `wait` action (the action
model declares `wait` supported with no required fields) dispatched to the
Executor does not complete successfully with only a sleep — the handler
table of `_process_action` has no `wait` entry, so `execute` raises
`BrowserOperationError` wrapping `ValueError`. -/
theorem execute_wait_raises_invalid_action_type :
    Action.validate { action_type := "wait" } = Except.ok () ∧
    "wait" ∈ ACTION_TYPE ∧ requiredFields "wait" = [] ∧
    execute { action_type := "wait" } { opened := [], fail := none }
        { contextPages := [{ pid := 0, closed := false }],
          pages := [{ pid := 0, closed := false }],
          current := some { pid := 0, closed := false } } =
      Except.error (PyErr.browserOpFrom "Action failed: wait"
        (PyErr.valueError
          "Invalid action type: wait. Valid types: click, left_double, right_single, drag, hotkey, type, scroll, switch_tab")) :=
  ⟨by decide, by decide, by decide, by decide⟩

/-- C3 fails as stated: `scroll` is a non-marker kind, yet its dispatch
performs no open-page refresh at all — even when the browser opens a page
during it — so no growth in the open-page count is detected for it. -/
theorem nonmarker_growth_detection_cex :
    processAction
        { action_type := "scroll", start_box := Value.coord (0, 0, 10, 10),
          deltas := Value.pair (0, 100) }
        { opened := [{ pid := 5, closed := false }], fail := none }
        { contextPages := [{ pid := 0, closed := false }],
          pages := [{ pid := 0, closed := false }],
          current := some { pid := 0, closed := false } } =
      Except.ok ([Cap.mouseMove 5 5, Cap.wheel 0 100, Cap.sleep],
        { contextPages := [{ pid := 0, closed := false }, { pid := 5, closed := false }],
          pages := [{ pid := 0, closed := false }],
          current := some { pid := 0, closed := false } }) ∧
    ¬ detectsPageGrowth [Cap.mouseMove 5 5, Cap.wheel 0 100, Cap.sleep] :=
  ⟨by decide, not_detects_of_no_getAllPages _ (by decide)⟩

/-- C3 (amended): only the click handler detects growth in the open-page
count — its trace reads the page list before and after the pointer
dispatch, and its final page list is the refreshed context including
implicitly opened (still open) pages, the count having grown by their
number; the other primitive-dispatch kinds issue no page-list read at all,
and `switch_tab` performs a single refresh, not a before/after
comparison. -/
theorem click_only_page_growth_detection (env : Env) (s : BCState)
    (hf : env.fail = none) :
    (∀ box : Int × Int × Int × Int,
       ∃ tr s1,
         processAction { action_type := "click", start_box := Value.coord box }
             env s = Except.ok (tr, s1) ∧
         detectsPageGrowth tr ∧
         s1.pages = (s.contextPages ++ env.opened).filter (fun p => !p.closed) ∧
         s1.pages.length = (get_all_pages s).1.length +
           (env.opened.filter (fun p => !p.closed)).length) ∧
    (∀ a : Action,
       a.action_type ∈
         ["left_double", "right_single", "drag", "hotkey", "type", "scroll"] →
       ∀ tr s1, processAction a env s = Except.ok (tr, s1) →
         Cap.getAllPages ∉ tr) ∧
    (∀ a : Action, a.action_type = "switch_tab" →
       ∀ tr s1, processAction a env s = Except.ok (tr, s1) →
         tr = [Cap.getAllPages, Cap.sleep] ∧ ¬ detectsPageGrowth tr) := by
  have hd : ∀ c, dispatchPrim env c = Except.ok [c] := by
    intro c; unfold dispatchPrim; rw [hf]
  refine ⟨?_, ?_, ?_⟩
  · intro box
    obtain ⟨opened, fail⟩ := env
    have hfn : fail = none := hf
    subst hfn
    refine ⟨[Cap.evalJs, Cap.sleep, Cap.getAllPages] ++
        [Cap.mouseClick (Action.calculate_center box).1
          (Action.calculate_center box).2 "left" 1] ++
        [Cap.sleep, Cap.getAllPages] ++
        (if (s.contextPages.filter (fun p => !p.closed)).length <
             ((s.contextPages ++ opened).filter (fun p => !p.closed)).length
         then [Cap.sleep] else []) ++
        [Cap.waitForLoadState],
      { contextPages := s.contextPages ++ opened,
        pages := (s.contextPages ++ opened).filter (fun p => !p.closed),
        current := s.current }, rfl, ?_, rfl, ?_⟩
    · exact ⟨2, 3, 5, by omega, by omega, rfl,
        ⟨Cap.mouseClick (Action.calculate_center box).1
          (Action.calculate_center box).2 "left" 1, rfl, rfl⟩, rfl⟩
    · show ((s.contextPages ++ opened).filter (fun p => !p.closed)).length =
        (s.contextPages.filter (fun p => !p.closed)).length +
        (opened.filter (fun p => !p.closed)).length
      rw [List.filter_append, List.length_append]
  · intro a hmem tr s1 h
    simp only [List.mem_cons, List.not_mem_nil, or_false] at hmem
    rcases hmem with h2 | h2 | h2 | h2 | h2 | h2
    · have hroute : processAction a env s = handle_double_click a env s := by
        unfold processAction; rw [h2]; rfl
      rw [hroute] at h
      unfold handle_double_click at h
      cases hsb : a.start_box <;>
          simp only [hsb, hd, Except.ok.injEq, Prod.mk.injEq] at h <;>
        first
        | (obtain ⟨htr, hs1⟩ := h; subst htr; simp)
        | exact absurd h (by simp)
    · have hroute : processAction a env s = handle_right_click a env s := by
        unfold processAction; rw [h2]; rfl
      rw [hroute] at h
      unfold handle_right_click at h
      cases hsb : a.start_box <;>
          simp only [hsb, hd, Except.ok.injEq, Prod.mk.injEq] at h <;>
        first
        | (obtain ⟨htr, hs1⟩ := h; subst htr; simp)
        | exact absurd h (by simp)
    · have hroute : processAction a env s = handle_drag a env s := by
        unfold processAction; rw [h2]; rfl
      rw [hroute] at h
      unfold handle_drag at h
      cases hsb : a.start_box <;> cases hse : a.end_box <;>
          simp only [hsb, hse, hd, Except.ok.injEq, Prod.mk.injEq] at h <;>
        first
        | (obtain ⟨htr, hs1⟩ := h; subst htr; simp)
        | exact absurd h (by simp)
    · have hroute : processAction a env s = handle_hotkey a env s := by
        unfold processAction; rw [h2]; rfl
      rw [hroute] at h
      unfold handle_hotkey at h
      cases hk : a.key <;>
          simp only [hk, hd, Except.ok.injEq, Prod.mk.injEq] at h <;>
        first
        | (obtain ⟨htr, hs1⟩ := h; subst htr; simp)
        | exact absurd h (by simp)
    · have hroute : processAction a env s = handle_type a env s := by
        unfold processAction; rw [h2]; rfl
      rw [hroute] at h
      unfold handle_type at h
      cases hc : a.content <;>
          simp only [hc, hd, Except.ok.injEq, Prod.mk.injEq] at h <;>
        first
        | (obtain ⟨htr, hs1⟩ := h; subst htr;
           cases hp3 : (a.parse_content).2 <;> simp [hp3])
        | exact absurd h (by simp)
    · have hroute : processAction a env s = handle_scroll a env s := by
        unfold processAction; rw [h2]; rfl
      rw [hroute] at h
      unfold handle_scroll at h
      cases hsb : a.start_box <;> cases hde : a.deltas <;>
          simp only [hsb, hde, hd, Except.ok.injEq, Prod.mk.injEq] at h <;>
        first
        | (obtain ⟨htr, hs1⟩ := h; subst htr; simp)
        | exact absurd h (by simp)
  · intro a h2 tr s1 h
    have hroute : processAction a env s = handle_switch_tab a s := by
      unfold processAction; rw [h2]; rfl
    rw [hroute] at h
    unfold handle_switch_tab at h
    have hshape : tr = [Cap.getAllPages, Cap.sleep] := by
      cases hti : a.tab_index with
      | vnone =>
          simp only [hti] at h
          unfold afterSwitch at h
          cases hr : (switch_to_new_page s).1 <;>
              simp only [hr, Except.ok.injEq, Prod.mk.injEq] at h
          · exact absurd h (by simp)
          · exact h.1.symm
      | int i =>
          simp only [hti] at h
          unfold afterSwitch at h
          cases hr : (switch_to_page i s).1 <;>
              simp only [hr, Except.ok.injEq, Prod.mk.injEq] at h
          · exact absurd h (by simp)
          · exact h.1.symm
      | str c =>
          simp only [hti] at h
          exact absurd h (by simp)
      | coord c =>
          simp only [hti] at h
          exact absurd h (by simp)
      | pair c =>
          simp only [hti] at h
          exact absurd h (by simp)
    refine ⟨hshape, ?_⟩
    rw [hshape]
    exact not_detects_of_no_dispatch _ (by decide)

/-- Witness for the amended C3: a click on a concrete state with one
implicitly opened page, and a scroll whose successful trace contains no
page-list read. -/
theorem click_only_page_growth_detection_witness :
    (∃ tr s1,
       processAction
           { action_type := "click", start_box := Value.coord (0, 0, 10, 10) }
           { opened := [{ pid := 5, closed := false }], fail := none }
           { contextPages := [{ pid := 0, closed := false }],
             pages := [{ pid := 0, closed := false }],
             current := some { pid := 0, closed := false } } =
         Except.ok (tr, s1) ∧
       detectsPageGrowth tr ∧
       s1.pages = [{ pid := 0, closed := false }, { pid := 5, closed := false }] ∧
       s1.pages.length = 1 + 1) ∧
    Cap.getAllPages ∉ [Cap.mouseMove 5 5, Cap.wheel 0 100, Cap.sleep] :=
  ⟨(click_only_page_growth_detection
      { opened := [{ pid := 5, closed := false }], fail := none }
      { contextPages := [{ pid := 0, closed := false }],
        pages := [{ pid := 0, closed := false }],
        current := some { pid := 0, closed := false } } rfl).1 (0, 0, 10, 10),
   (click_only_page_growth_detection
      { opened := [{ pid := 5, closed := false }], fail := none }
      { contextPages := [{ pid := 0, closed := false }],
        pages := [{ pid := 0, closed := false }],
        current := some { pid := 0, closed := false } } rfl).2.1
     { action_type := "scroll", start_box := Value.coord (0, 0, 10, 10),
       deltas := Value.pair (0, 100) }
     (by decide) [Cap.mouseMove 5 5, Cap.wheel 0 100, Cap.sleep]
     { contextPages := [{ pid := 0, closed := false }, { pid := 5, closed := false }],
       pages := [{ pid := 0, closed := false }],
       current := some { pid := 0, closed := false } }
     (by decide)⟩

/-- C7: `switch_tab` execution selects the page at `tab_index` in the
refreshed open-page list when the index is in range, fails with the
out-of-range `BrowserOperationError` when it is not, and selects the most
recently opened (last) page of the refreshed list when `tab_index` is
absent. -/
theorem handle_switch_tab_spec (a : Action) (env : Env) (s : BCState)
    (ht : a.action_type = "switch_tab") :
    (∀ i : Int, a.tab_index = Value.int i →
       (0 ≤ i → ∀ p, (get_all_pages s).1.get? i.toNat = some p →
          ∃ s1, processAction a env s =
              Except.ok ([Cap.getAllPages, Cap.sleep], s1) ∧
            s1.current = some p) ∧
       (¬ (0 ≤ i ∧ i < (((get_all_pages s).1).length : Int)) →
          processAction a env s = Except.error (PyErr.browserOp
            ("Invalid page index: " ++ toString i ++ ". Total pages: " ++
              toString ((get_all_pages s).1).length)))) ∧
    (a.tab_index = Value.vnone →
       ∀ p, (get_all_pages s).1.getLast? = some p →
         ∃ s1, processAction a env s =
             Except.ok ([Cap.getAllPages, Cap.sleep], s1) ∧
           s1.current = some p) := by
  have hroute : processAction a env s = handle_switch_tab a s := by
    unfold processAction; rw [ht]; rfl
  constructor
  · intro i hti
    constructor
    · intro h0 p hp2
      obtain ⟨hlt, hget⟩ := List.get?_eq_some.mp hp2
      have hcond : 0 ≤ i ∧ i < (((get_all_pages s).1).length : Int) :=
        ⟨h0, by omega⟩
      have hsp : switch_to_page i s =
          (Except.ok (), { (get_all_pages s).2 with
            current := some ((get_all_pages s).1.get ⟨i.toNat, hlt⟩) }) := by
        unfold switch_to_page
        rw [dif_pos hcond]
      refine ⟨{ (get_all_pages s).2 with
        current := some ((get_all_pages s).1.get ⟨i.toNat, hlt⟩) }, ?_, ?_⟩
      · rw [hroute]
        unfold handle_switch_tab
        rw [hti]
        show afterSwitch (switch_to_page i s) = _
        rw [hsp]
        rfl
      · show some ((get_all_pages s).1.get ⟨i.toNat, hlt⟩) = some p
        exact congrArg some hget
    · intro hout
      have hsp : switch_to_page i s =
          (Except.error (PyErr.browserOp
            ("Invalid page index: " ++ toString i ++ ". Total pages: " ++
              toString ((get_all_pages s).1).length)), (get_all_pages s).2) := by
        unfold switch_to_page
        rw [dif_neg hout]
      rw [hroute]
      unfold handle_switch_tab
      rw [hti]
      show afterSwitch (switch_to_page i s) = _
      rw [hsp]
      rfl
  · intro hti p hlast
    have hsp : switch_to_new_page s =
        (Except.ok (), { (get_all_pages s).2 with current := some p }) := by
      unfold switch_to_new_page
      rw [hlast]
    refine ⟨{ (get_all_pages s).2 with current := some p }, ?_, rfl⟩
    rw [hroute]
    unfold handle_switch_tab
    rw [hti]
    show afterSwitch (switch_to_new_page s) = _
    rw [hsp]
    rfl

/-- Witness for C7: on a refreshed list of two open pages (one closed page
dropped), index 1 selects the second page, index 5 is out of range, and an
absent index selects the last page. -/
theorem handle_switch_tab_spec_witness :
    (∃ s1, processAction
        { action_type := "switch_tab", tab_index := Value.int 1 }
        { opened := [], fail := none }
        { contextPages := [{ pid := 0, closed := false },
            { pid := 1, closed := true }, { pid := 2, closed := false }],
          pages := [], current := none } =
        Except.ok ([Cap.getAllPages, Cap.sleep], s1) ∧
      s1.current = some { pid := 2, closed := false }) ∧
    processAction
        { action_type := "switch_tab", tab_index := Value.int 5 }
        { opened := [], fail := none }
        { contextPages := [{ pid := 0, closed := false },
            { pid := 1, closed := true }, { pid := 2, closed := false }],
          pages := [], current := none } =
      Except.error (PyErr.browserOp
        ("Invalid page index: " ++ toString (5 : Int) ++ ". Total pages: " ++
          toString 2)) ∧
    (∃ s1, processAction
        { action_type := "switch_tab", tab_index := Value.vnone }
        { opened := [], fail := none }
        { contextPages := [{ pid := 0, closed := false },
            { pid := 1, closed := true }, { pid := 2, closed := false }],
          pages := [], current := none } =
        Except.ok ([Cap.getAllPages, Cap.sleep], s1) ∧
      s1.current = some { pid := 2, closed := false }) :=
  ⟨((handle_switch_tab_spec _ _ _ rfl).1 1 rfl).1 (by omega)
      { pid := 2, closed := false } (by decide),
   ((handle_switch_tab_spec _ _ _ rfl).1 5 rfl).2 (by decide),
   (handle_switch_tab_spec _ _ _ rfl).2 rfl
      { pid := 2, closed := false } (by decide)⟩

/-- C8: an exception raised during an action's dispatch surfaces from
`execute` only wrapped as a `BrowserOperationError` naming the action's
type and chaining the original exception as its cause. -/
theorem execute_wraps_dispatch_failures (a : Action) (env : Env) (s : BCState)
    (e : PyErr) (hv : a.validate = Except.ok ())
    (hm : a.action_type ∉ ["call_user", "finished", "start"])
    (hp : processAction a env s = Except.error e) :
    execute a env s =
      Except.error (PyErr.browserOpFrom ("Action failed: " ++ a.action_type) e) := by
  unfold execute
  rw [hv, if_neg hm, hp]

/-- Witness for C8: a capability failure during a click surfaces as the
wrapped error chaining the raised exception. -/
theorem execute_wraps_dispatch_failures_witness :
    execute { action_type := "click", start_box := Value.coord (0, 0, 10, 10) }
        { opened := [], fail := some (PyErr.capability "boom") }
        { contextPages := [], pages := [], current := none } =
      Except.error (PyErr.browserOpFrom "Action failed: click"
        (PyErr.capability "boom")) :=
  execute_wraps_dispatch_failures _ _ _ _ (by decide) (by decide) (by decide)

/-- C10: switching to the most recently opened tab when the refreshed
open-page list is empty raises `BrowserOperationError` and leaves the
current page unchanged; the refreshed list only ever contains pages that
are still open. -/
theorem switch_to_new_page_empty_spec (s : BCState) :
    ((get_all_pages s).1 = [] →
       (switch_to_new_page s).1 =
         Except.error (PyErr.browserOp "No pages available") ∧
       ((switch_to_new_page s).2).current = s.current) ∧
    ∀ p ∈ (get_all_pages s).1, p.closed = false := by
  constructor
  · intro hemp
    have hlast : (get_all_pages s).1.getLast? = none := by rw [hemp]; rfl
    unfold switch_to_new_page
    rw [hlast]
    exact ⟨rfl, rfl⟩
  · intro p hp
    have hp2 : p ∈ s.contextPages.filter (fun q => !q.closed) := hp
    rcases List.mem_filter.mp hp2 with ⟨-, h2⟩
    simpa using h2

/-- Witness for C10 at a state whose only context page is closed. -/
theorem switch_to_new_page_empty_spec_witness :
    (switch_to_new_page
        { contextPages := [{ pid := 0, closed := true }],
          pages := [{ pid := 0, closed := true }],
          current := some { pid := 0, closed := true } }).1 =
      Except.error (PyErr.browserOp "No pages available") ∧
    ((switch_to_new_page
        { contextPages := [{ pid := 0, closed := true }],
          pages := [{ pid := 0, closed := true }],
          current := some { pid := 0, closed := true } }).2).current =
      some { pid := 0, closed := true } :=
  (switch_to_new_page_empty_spec _).1 (by decide)

end Browsetic
